import Mathlib

/-!
Verification of the herbal e-commerce/HR backend against its specification.

The JavaScript sources are shallowly embedded: JS numbers are modelled as
exact fractions (`Frac`, an integer numerator with a positive natural
denominator) together with an explicit IEEE-754 binary64 rounding
function `fl` (round to nearest, ties to even) applied wherever the source
performs a floating-point operation; the Supabase/Postgres store is
modelled as explicit record lists threaded through each service function,
with an error schedule standing for the store's possible per-call failures
and a trace recording which store statements were issued.
All embedded inputs lie well inside the binary64 normal range, so `fl`
does not model overflow or subnormals.
-/

set_option maxRecDepth 4000

namespace Herbal

/-! ## Exact fraction arithmetic (kept in raw `Int`/`Nat` form so that all
computations reduce by kernel integer arithmetic) -/

/-- An exact fraction: `num / den` with `den` intended positive.
Not kept in lowest terms; equality is cross-multiplication `Frac.eq`. -/
structure Frac where
  num : Int
  den : Nat
  deriving DecidableEq, Repr

/-- Embed an integer. -/
def Frac.ofInt (n : Int) : Frac := ⟨n, 1⟩

/-- Value equality of fractions (cross multiplication). -/
def Frac.eq (a b : Frac) : Prop := a.num * (b.den : Int) = b.num * (a.den : Int)

instance (a b : Frac) : Decidable (Frac.eq a b) := by
  unfold Frac.eq; infer_instance

/-- `a ≤ b` on fraction values (denominators positive). -/
def Frac.le (a b : Frac) : Prop := a.num * (b.den : Int) ≤ b.num * (a.den : Int)

instance (a b : Frac) : Decidable (Frac.le a b) := by
  unfold Frac.le; infer_instance

/-- `a < b` on fraction values (denominators positive). -/
def Frac.lt (a b : Frac) : Prop := a.num * (b.den : Int) < b.num * (a.den : Int)

instance (a b : Frac) : Decidable (Frac.lt a b) := by
  unfold Frac.lt; infer_instance

/-- Exact sum. -/
def Frac.add (a b : Frac) : Frac := ⟨a.num * b.den + b.num * a.den, a.den * b.den⟩

/-- Exact product. -/
def Frac.mul (a b : Frac) : Frac := ⟨a.num * b.num, a.den * b.den⟩

/-- Exact negation. -/
def Frac.neg (a : Frac) : Frac := ⟨-a.num, a.den⟩

/-! ## JS number model: IEEE-754 binary64 rounding over exact fractions -/

/-- Base-2 logarithm of a natural number with structural fuel
(enough for all numerators used here). -/
def natLog2Aux : Nat → Nat → Nat
  | 0, _ => 0
  | f + 1, n => if n ≤ 1 then 0 else natLog2Aux f (n / 2) + 1

/-- `natLog2 n = ⌊log₂ n⌋` for `1 ≤ n < 2^255`. -/
def natLog2 (n : Nat) : Nat := natLog2Aux 255 n

/-- Is `2^e ≤ n/d` (for positive `n`, `d`)? -/
def le2pow (n d : Nat) (e : Int) : Bool :=
  if 0 ≤ e then d * 2 ^ e.toNat ≤ n else d ≤ n * 2 ^ (-e).toNat

/-- Floor of the base-2 logarithm of the positive value `n/d`. -/
def floorLog2 (n d : Nat) : Int :=
  let e0 : Int := (natLog2 n : Int) - (natLog2 d : Int)
  if le2pow n d (e0 + 1) then e0 + 1
  else if le2pow n d e0 then e0
  else e0 - 1

/-- Round the value `N/D` (with `D` positive) to the nearest integer,
ties to even. -/
def rne (N D : Nat) : Nat :=
  let f := N / D
  let r2 := 2 * (N - f * D)
  if r2 < D then f
  else if D < r2 then f + 1
  else if f % 2 = 0 then f else f + 1

/-- Round the positive value `n/d` to the binary64 grid: 53 significant
bits, round to nearest, ties to even (normal range only). -/
def flPos (n d : Nat) : Frac :=
  let e := floorLog2 n d
  let s : Int := 52 - e
  let m : Nat :=
    if 0 ≤ s then rne (n * 2 ^ s.toNat) d
    else rne n (d * 2 ^ (-s).toNat)
  if 0 ≤ e - 52 then ⟨(m * 2 ^ (e - 52).toNat : Nat), 1⟩
  else ⟨m, 2 ^ (52 - e).toNat⟩

/-- IEEE-754 binary64 rounding of an exact fraction (normal range;
no overflow or subnormal handling, which no modelled input reaches). -/
def fl (q : Frac) : Frac :=
  if q.num = 0 then ⟨0, 1⟩
  else if q.num < 0 then (flPos q.num.natAbs q.den).neg
  else flPos q.num.natAbs q.den

/-- JS `+` on numbers: exact sum, rounded to binary64. -/
def jsAdd (a b : Frac) : Frac := fl (a.add b)

/-- JS `*` on numbers: exact product, rounded to binary64. -/
def jsMul (a b : Frac) : Frac := fl (a.mul b)

/-- JS `parseInt` applied to a number: truncation toward zero.
(String round-trip edge cases, e.g. exponent notation, are outside the
modelled input range.) -/
def jsTrunc (q : Frac) : Int := q.num.tdiv (q.den : Int)

/-- Truthiness of a JS number: `0` (and `NaN`, not representable here)
is falsy, everything else truthy. -/
def truthyNum (q : Frac) : Bool := q.num ≠ 0

/-! ## String utilities -/

/-- Does `s` begin with the pattern `pat` (character lists)? -/
def listLeadEq : List Char → List Char → Bool
  | [], _ => true
  | _ :: _, [] => false
  | a :: as, b :: bs => a == b && listLeadEq as bs

/-- JS `String.prototype.includes`: `pat` occurs inside `hay`. -/
def strIncludes (hay pat : String) : Bool :=
  (List.range (hay.data.length + 1)).any fun i => listLeadEq pat.data (hay.data.drop i)

/-- JS `x || dflt` for strings: the empty string is falsy. -/
def strOrDefault (s : Option String) (dflt : String) : String :=
  match s with
  | none => dflt
  | some t => if t = "" then dflt else t

/-! ## Data rows and the store

Tables as in the database setup script (`part_000`) and the README schema:
orders/categories/products keyed by integer serial ids, users keyed by
UUID strings. -/

structure UserRow where
  id : String
  email : String
  role : String
  is_active : Bool
  deriving DecidableEq, Repr

structure CategoryRow where
  id : Nat
  name : String
  deriving DecidableEq, Repr

structure ProductRow where
  id : Nat
  name : String
  price : Frac
  stock : Int
  category_id : Option Nat
  deriving DecidableEq, Repr

structure OrderRow where
  id : Nat
  user_id : String
  status : String
  total_amount : Frac
  deriving DecidableEq, Repr

structure OrderItemRow where
  order_id : Nat
  product_id : Frac
  quantity : Int
  price : Frac
  deriving DecidableEq, Repr

/-- The relational store, newest rows appended last; `nextOrderId` is the
next value of the orders BIGSERIAL. -/
structure Store where
  users : List UserRow
  categories : List CategoryRow
  products : List ProductRow
  orders : List OrderRow
  order_items : List OrderItemRow
  nextOrderId : Nat
  deriving DecidableEq, Repr

/-- A fresh store: no rows, first order id 1. -/
def emptyStore : Store := ⟨[], [], [], [], [], 1⟩

/-- One store statement, recorded in the trace of each embedded call. -/
inductive Op where
  | selectUsers
  | selectCategories
  | selectProducts
  | selectOrders
  | selectOrderItems
  | insertOrder
  | insertOrderItems
  | deleteOrderStmt
  | deleteCategoryStmt
  | updateUserStmt
  deriving DecidableEq, Repr

/-- Is an op a write (insert/update/delete)? -/
def Op.isWrite : Op → Bool
  | .insertOrder | .insertOrderItems | .deleteOrderStmt
  | .deleteCategoryStmt | .updateUserStmt => true
  | _ => false

/-- A thrown `Error`'s message. -/
abbrev Err := String

instance {ε α : Type} [DecidableEq ε] [DecidableEq α] : DecidableEq (Except ε α) :=
  fun x y =>
    match x, y with
    | .ok a, .ok b =>
      if h : a = b then .isTrue (by rw [h]) else .isFalse (by intro hc; cases hc; exact h rfl)
    | .error a, .error b =>
      if h : a = b then .isTrue (by rw [h]) else .isFalse (by intro hc; cases hc; exact h rfl)
    | .ok _, .error _ => .isFalse (by intro hc; cases hc)
    | .error _, .ok _ => .isFalse (by intro hc; cases hc)

/-! ## Response envelope (`part_008`, response.utils.js) -/

/-- The response envelope observable to clients: HTTP status, success flag,
message, and an optional payload. -/
structure Resp (α : Type) where
  status : Nat
  success : Bool
  message : String
  data : Option α
  deriving DecidableEq, Repr

def sendSuccessResponse {α : Type} (status : Nat) (message : String) (data : Option α) :
    Resp α :=
  ⟨status, true, message, data⟩

def sendErrorResponse {α : Type} (status : Nat) (message : String) : Resp α :=
  ⟨status, false, message, none⟩

def sendNotFoundResponse {α : Type} (message : String) : Resp α :=
  sendErrorResponse 404 message

def sendUnauthorizedResponse {α : Type} (message : String) : Resp α :=
  sendErrorResponse 401 message

def sendForbiddenResponse {α : Type} (message : String) : Resp α :=
  sendErrorResponse 403 message

/-- Pagination metadata computed by `sendPaginatedResponse`
(`part_008:101`): `totalPages = Math.ceil(total / limit)` (the embedding
assumes `1 ≤ limit`, which every caller has validated). -/
structure Pagination where
  currentPage : Int
  totalPages : Nat
  totalItems : Nat
  itemsPerPage : Int
  hasNextPage : Bool
  hasPrevPage : Bool
  deriving DecidableEq, Repr

def mkPagination (page limit : Int) (total : Nat) : Pagination :=
  let totalPages : Nat := (total + limit.toNat - 1) / limit.toNat
  { currentPage := page
    totalPages := totalPages
    totalItems := total
    itemsPerPage := limit
    hasNextPage := page < (totalPages : Int)
    hasPrevPage := 1 < page }

def sendPaginatedResponse {α : Type} (rows : List α) (page limit : Int) (total : Nat)
    (message : String) : Resp (List α × Pagination) :=
  sendSuccessResponse 200 message (some (rows, mkPagination page limit total))

/-- `parseInt(raw) || dflt` for query parameters: `none` models a
missing/non-numeric (NaN) parameter, and a parsed `0` is falsy, so both
fall back to the default. -/
def effectiveParam (raw : Option Int) (dflt : Int) : Int :=
  match raw with
  | none => dflt
  | some v => if v = 0 then dflt else v

/-- The acting principal attached to `req.user` by the auth middleware. -/
structure Principal where
  id : String
  role : String
  deriving DecidableEq, Repr

/-! ## Range pagination (product.model.js and its order-model analogue) -/

/-- `getAllProductsQuery` (src/src/model/product.model.js:14): 1-based page
and limit to an inclusive `from`/`to` range. -/
def getAllProductsQuery (page limit : Nat) : Nat × Nat :=
  ((page - 1) * limit, (page - 1) * limit + limit - 1)

/-- `getAllOrdersQuery` (order.model.js, concatenated into
src/src/config/supabaseClient.js at its line 30): 1-based page and limit to
the same inclusive `from`/`to` range as the product model
(`from = (page-1)*limit`, `to = from + limit - 1`). `getOrdersByUserQuery`
(line 46 there) computes the identical range and is embedded through this
same definition. -/
def getAllOrdersQuery (page limit : Nat) : Nat × Nat :=
  getAllProductsQuery page limit

/-- Supabase `.range(lo, hi)`: the inclusive slice of the result set. -/
def rangeSlice {α : Type} (l : List α) (lo hi : Nat) : List α :=
  (l.drop lo).take (hi - lo + 1)

/-! ## Order service (src/src/services/order.service.js) -/

/-- An order item as it arrives in the request body: after JSON parsing
every numeric field is already a binary64 value. -/
structure ReqItem where
  product_id : Frac
  quantity : Frac
  price : Frac
  deriving DecidableEq, Repr

/-- A request item built from client-supplied decimal literals: JSON
parsing yields the binary64 value nearest each decimal. -/
def parsedItem (pid : Int) (qty : Int) (priceNum : Int) (priceDen : Nat) : ReqItem :=
  ⟨fl ⟨pid, 1⟩, fl ⟨qty, 1⟩, fl ⟨priceNum, priceDen⟩⟩

/-- The truthiness test of `OrderService.create`'s per-item loop:
`!item.product_id || !item.quantity || !item.price`. -/
def itemFieldsOk (it : ReqItem) : Bool :=
  truthyNum it.product_id && truthyNum it.quantity && truthyNum it.price

/-- The total computed by `OrderService.create` (order.service.js:169-175):
`totalAmount += parseFloat(item.price) * parseInt(item.quantity)`, each
operation in binary64. -/
def serviceTotal (items : List ReqItem) : Frac :=
  items.foldl (fun acc it => jsAdd acc (jsMul it.price ⟨jsTrunc it.quantity, 1⟩)) ⟨0, 1⟩

/-- The exact decimal total the spec prescribes: `Σ price × quantity` over
the client-supplied decimal values, no rounding. -/
def decimalTotal (items : List (Frac × Int)) : Frac :=
  items.foldl (fun acc pq => acc.add (pq.1.mul ⟨pq.2, 1⟩)) ⟨0, 1⟩

structure OrderData where
  user_id : String
  items : List ReqItem
  status : Option String
  deriving Repr

/-- Failure injection for the three store statements of
`OrderService.create`. -/
structure CreateSchedule where
  orderInsertErr : Option String
  itemsInsertErr : Option String
  deleteErr : Option String
  deriving Repr

/-- `OrderService.create` (order.service.js:158-223): validate, compute the
binary64 total, insert the order row, insert the item rows, and on an
item-insert failure issue a compensating order delete whose own result is
discarded before rethrowing the item-insert error. -/
def OrderService.create (od : OrderData) (st : Store) (sch : CreateSchedule) :
    Except Err (OrderRow × List OrderItemRow) × Store × List Op :=
  if od.user_id = "" then (.error "User ID is required", st, [])
  else if od.items.isEmpty then (.error "Order must have at least one item", st, [])
  else if od.items.any (fun it => !(itemFieldsOk it)) then
    (.error "Each item must have product_id, quantity, and price", st, [])
  else
    let total := serviceTotal od.items
    match sch.orderInsertErr with
    | some m => (.error m, st, [.insertOrder])
    | none =>
      let row : OrderRow :=
        { id := st.nextOrderId
          user_id := od.user_id
          status := strOrDefault od.status "pending"
          total_amount := total }
      let st1 := { st with orders := st.orders ++ [row], nextOrderId := st.nextOrderId + 1 }
      match sch.itemsInsertErr with
      | some m =>
        let st2 :=
          if sch.deleteErr.isSome then st1
          else { st1 with orders := st1.orders.filter fun o => o.id ≠ row.id }
        (.error m, st2, [.insertOrder, .insertOrderItems, .deleteOrderStmt])
      | none =>
        let rows := od.items.map fun it =>
          ({ order_id := row.id
             product_id := it.product_id
             quantity := jsTrunc it.quantity
             price := it.price } : OrderItemRow)
        (.ok (row, rows), { st1 with order_items := st1.order_items ++ rows },
          [.insertOrder, .insertOrderItems])

/-- Failure injection for the two select statements of
`OrderService.findById`. -/
structure FindSchedule where
  orderSelectErr : Option String
  itemsSelectErr : Option String
  deriving Repr

/-- `OrderService.findById` (order.service.js:94-122): fetch the order row,
then its items, and join them in memory. -/
def OrderService.findById (id : Nat) (st : Store) (sch : FindSchedule) :
    Except Err (Option (OrderRow × List OrderItemRow)) × List Op :=
  match sch.orderSelectErr with
  | some m => (.error m, [.selectOrders])
  | none =>
    match st.orders.find? (fun o => o.id = id) with
    | none => (.ok none, [.selectOrders])
    | some o =>
      match sch.itemsSelectErr with
      | some m => (.error m, [.selectOrders, .selectOrderItems])
      | none =>
        (.ok (some (o, st.order_items.filter fun it => it.order_id = id)),
          [.selectOrders, .selectOrderItems])

/-- `OrderService.findAll` (order.service.js:27-52). -/
def OrderService.findAll (page limit : Nat) (st : Store) (e : Option String) :
    Except Err (List OrderRow × Nat) × List Op :=
  match e with
  | some m => (.error m, [.selectOrders])
  | none =>
    let r := getAllOrdersQuery page limit
    (.ok (rangeSlice st.orders r.1 r.2, st.orders.length), [.selectOrders])

/-- `OrderService.findByUser` (order.service.js:61-87). -/
def OrderService.findByUser (uid : String) (page limit : Nat) (st : Store)
    (e : Option String) : Except Err (List OrderRow × Nat) × List Op :=
  match e with
  | some m => (.error m, [.selectOrders])
  | none =>
    let rows := st.orders.filter fun o => o.user_id = uid
    let r := getAllOrdersQuery page limit
    (.ok (rangeSlice rows r.1 r.2, rows.length), [.selectOrders])

/-! ## Order controllers (src/src/controllers/order.controller.js) -/

/-- Per-item validation of the `createOrder` controller
(order.controller.js:124-140), returning the first failing check's
message. `isNaN` can only fire on non-numeric input, which is outside the
modelled value space. -/
def validateItem (it : ReqItem) : Option String :=
  if !(itemFieldsOk it) then some "Each item must have product_id, quantity, and price"
  else if jsTrunc it.quantity < 1 then some "Invalid quantity value"
  else if Frac.lt it.price ⟨0, 1⟩ then some "Invalid price value"
  else none

def firstItemError : List ReqItem → Option String
  | [] => none
  | it :: rest =>
    match validateItem it with
    | some m => some m
    | none => firstItemError rest

/-- The item shape the controller's validation actually admits: truthy
(nonzero) product_id, quantity and price, `parseInt(quantity) ≥ 1`, and
`parseFloat(price) ≥ 0` — so a price of exactly 0 is NOT admitted (it is
falsy), while a fractional quantity ≥ 1 is. -/
def goodReqItem (it : ReqItem) : Prop :=
  it.product_id.num ≠ 0 ∧ it.quantity.num ≠ 0 ∧ it.price.num ≠ 0 ∧
    1 ≤ jsTrunc it.quantity ∧ ¬ Frac.lt it.price ⟨0, 1⟩

instance (it : ReqItem) : Decidable (goodReqItem it) := by
  unfold goodReqItem; infer_instance

/-- `createOrder` controller (order.controller.js:113-160). `items = none`
models a missing/non-array body field. -/
def createOrder (principal : Principal) (items : Option (List ReqItem))
    (status : Option String) (st : Store) (sch : CreateSchedule) :
    Resp (OrderRow × List OrderItemRow) × Store × List Op :=
  match items with
  | none => (sendErrorResponse 400 "Order must have at least one item", st, [])
  | some its =>
    if its.isEmpty then (sendErrorResponse 400 "Order must have at least one item", st, [])
    else
      match firstItemError its with
      | some m => (sendErrorResponse 400 m, st, [])
      | none =>
        let od : OrderData :=
          { user_id := principal.id, items := its
            status := some (strOrDefault status "pending") }
        match OrderService.create od st sch with
        | (.ok ow, st', tr) =>
          (sendSuccessResponse 201 "Order created successfully" (some ow), st', tr)
        | (.error m, st', tr) =>
          if strIncludes m "required" || strIncludes m "must have" then
            (sendErrorResponse 400 m, st', tr)
          else (sendErrorResponse 500 "Failed to create order", st', tr)

/-- `getOrderById` controller (order.controller.js:80-106): not-found is
checked first, then the ownership/admin gate. -/
def getOrderById (principal : Principal) (idParam : Option Nat) (st : Store)
    (sch : FindSchedule) : Resp (OrderRow × List OrderItemRow) × List Op :=
  match idParam with
  | none => (sendErrorResponse 400 "Order ID is required", [])
  | some id =>
    match OrderService.findById id st sch with
    | (.error _, tr) => (sendErrorResponse 500 "Failed to fetch order", tr)
    | (.ok none, tr) => (sendNotFoundResponse "Order not found", tr)
    | (.ok (some ow), tr) =>
      if principal.role ≠ "admin" ∧ ow.1.user_id ≠ principal.id then
        (sendErrorResponse 403 "Access denied", tr)
      else (sendSuccessResponse 200 "Order retrieved successfully" (some ow), tr)

/-- `getAllOrders` controller (order.controller.js:19-42): effective
pagination parameters validated before any store call. -/
def getAllOrders (rawPage rawLimit : Option Int) (st : Store) (e : Option String) :
    Resp (List OrderRow × Pagination) × List Op :=
  let page := effectiveParam rawPage 1
  let limit := effectiveParam rawLimit 10
  if page < 1 ∨ limit < 1 ∨ 100 < limit then
    (sendErrorResponse 400 "Invalid pagination parameters", [])
  else
    match OrderService.findAll page.toNat limit.toNat st e with
    | (.error _, tr) => (sendErrorResponse 500 "Failed to fetch orders", tr)
    | (.ok (rows, total), tr) =>
      (sendPaginatedResponse rows page limit total "Orders retrieved successfully", tr)

/-- `getUserOrders` controller (order.controller.js:49-73). -/
def getUserOrders (principal : Principal) (rawPage rawLimit : Option Int) (st : Store)
    (e : Option String) : Resp (List OrderRow × Pagination) × List Op :=
  let page := effectiveParam rawPage 1
  let limit := effectiveParam rawLimit 10
  if page < 1 ∨ limit < 1 ∨ 100 < limit then
    (sendErrorResponse 400 "Invalid pagination parameters", [])
  else
    match OrderService.findByUser principal.id page.toNat limit.toNat st e with
    | (.error _, tr) => (sendErrorResponse 500 "Failed to fetch orders", tr)
    | (.ok (rows, total), tr) =>
      (sendPaginatedResponse rows page limit total "Orders retrieved successfully", tr)

/-! ## Product service and list controller (part_001, part_004) -/

/-- `ProductService.findAll` (part_001:23-49). -/
def ProductService.findAll (page limit : Nat) (st : Store) (e : Option String) :
    Except Err (List ProductRow × Nat) × List Op :=
  match e with
  | some m => (.error m, [.selectProducts])
  | none =>
    let r := getAllProductsQuery page limit
    (.ok (rangeSlice st.products r.1 r.2, st.products.length), [.selectProducts])

/-- `getAllProducts` controller (part_004:19-44). -/
def getAllProducts (rawPage rawLimit : Option Int) (st : Store) (e : Option String) :
    Resp (List ProductRow × Pagination) × List Op :=
  let page := effectiveParam rawPage 1
  let limit := effectiveParam rawLimit 10
  if page < 1 ∨ limit < 1 ∨ 100 < limit then
    (sendErrorResponse 400 "Invalid pagination parameters", [])
  else
    match ProductService.findAll page.toNat limit.toNat st e with
    | (.error _, tr) => (sendErrorResponse 500 "Failed to fetch products", tr)
    | (.ok (rows, total), tr) =>
      (sendPaginatedResponse rows page limit total "Products retrieved successfully", tr)

/-! ## Category service and delete controller
(src/src/services/category.service.js, part_007) -/

/-- `CategoryService.findById` (category.service.js:47-67). -/
def CategoryService.findById (id : Nat) (st : Store) (e : Option String) :
    Except Err (Option CategoryRow) × List Op :=
  match e with
  | some m => (.error m, [.selectCategories])
  | none => (.ok (st.categories.find? fun c => c.id = id), [.selectCategories])

/-- Failure injection for the three store statements of
`CategoryService.delete`. -/
structure CatSchedule where
  findErr : Option String
  productsCheckErr : Option String
  deleteErr : Option String
  deriving Repr

/-- `CategoryService.delete` (category.service.js:141-181). A failure of
the products-check query is only logged (`console.error`), after which
`products` is null, the conflict guard is skipped, and the delete statement
still runs. -/
def CategoryService.delete (id : Nat) (st : Store) (sch : CatSchedule) :
    Except Err Bool × Store × List Op :=
  match CategoryService.findById id st sch.findErr with
  | (.error m, tr) => (.error m, st, tr)
  | (.ok none, tr) => (.error "Category not found", st, tr)
  | (.ok (some _), tr) =>
    let tr := tr ++ [.selectProducts]
    let productsData : Option (List ProductRow) :=
      match sch.productsCheckErr with
      | some _ => none
      | none => some ((st.products.filter fun p => p.category_id = some id).take 1)
    let hasProducts : Bool :=
      match productsData with
      | none => false
      | some ps => 0 < ps.length
    if hasProducts then (.error "Cannot delete category with existing products", st, tr)
    else
      match sch.deleteErr with
      | some m => (.error m, st, tr ++ [.deleteCategoryStmt])
      | none =>
        (.ok true, { st with categories := st.categories.filter fun c => c.id ≠ id },
          tr ++ [.deleteCategoryStmt])

/-- `deleteCategory` controller (part_007:169-193): maps "not found" to
404, "existing products" to 400, anything else to 500. -/
def deleteCategory (idParam : Option Nat) (st : Store) (sch : CatSchedule) :
    Resp Unit × Store × List Op :=
  match idParam with
  | none => (sendErrorResponse 400 "Category ID is required", st, [])
  | some id =>
    match CategoryService.delete id st sch with
    | (.ok _, st', tr) =>
      (sendSuccessResponse 200 "Category deleted successfully" none, st', tr)
    | (.error m, st', tr) =>
      if strIncludes m "not found" then (sendNotFoundResponse "Category not found", st', tr)
      else if strIncludes m "existing products" then (sendErrorResponse 400 m, st', tr)
      else (sendErrorResponse 500 "Failed to delete category", st', tr)

/-! ## User service and deactivation (src/src/services/user.service.js,
part_006) -/

/-- `UserService.findById` (user.service.js:48-66). -/
def UserService.findById (id : String) (st : Store) (e : Option String) :
    Except Err (Option UserRow) × List Op :=
  match e with
  | some m => (.error ("Database error: " ++ m), [.selectUsers])
  | none => (.ok (st.users.find? fun u => u.id = id), [.selectUsers])

/-- `UserService.deactivate` (user.service.js:153-171), executing the
`deactivateUser` query builder (userQuery.model.js, concatenated into
src/src/config/supabaseClient.js at its line 244) through a single
`update` statement that sets `is_active` to false and touches nothing
else — it never deletes the row. -/
def UserService.deactivate (id : String) (st : Store) (e : Option String) :
    Except Err Bool × Store × List Op :=
  match e with
  | some m => (.error ("Database error: " ++ m), st, [.updateUserStmt])
  | none =>
    (.ok true,
      { st with users := st.users.map fun u =>
          if u.id = id then { u with is_active := false } else u },
      [.updateUserStmt])

/-- Failure injection for `deactivateUser`'s two store statements. -/
structure UserSchedule where
  findErr : Option String
  updateErr : Option String
  deriving Repr

/-- `deactivateUser` controller (part_006:142-165): existence check, then
the self-deactivation guard comparing the route param to the acting
principal's id, then the deactivating update. -/
def deactivateUser (principal : Principal) (idParam : String) (st : Store)
    (sch : UserSchedule) : Resp Unit × Store × List Op :=
  match UserService.findById idParam st sch.findErr with
  | (.error _, tr) => (sendErrorResponse 500 "Failed to deactivate user", st, tr)
  | (.ok none, tr) => (sendNotFoundResponse "User not found", st, tr)
  | (.ok (some _), tr) =>
    if idParam = principal.id then
      (sendErrorResponse 400 "You cannot deactivate your own account", st, tr)
    else
      match UserService.deactivate idParam st sch.updateErr with
      | (.error _, st', tr2) => (sendErrorResponse 500 "Failed to deactivate user", st', tr ++ tr2)
      | (.ok _, st', tr2) =>
        (sendSuccessResponse 200 "User deactivated successfully" none, st', tr ++ tr2)

/-! ## JWT utilities and authentication middleware
(src/src/utils/jwt.utils.js, src/src/middleware/auth.middleware.js) -/

structure JwtPayload where
  userId : String
  email : String
  role : String
  deriving DecidableEq, Repr

/-- A signed token: the payload plus the signing secret and the registered
claims `jsonwebtoken` adds (`issuer`, `audience`, expiry instant). Note the
payload carries no field distinguishing access from refresh tokens. -/
structure Token where
  payload : JwtPayload
  secret : String
  issuer : String
  audience : String
  exp : Nat
  deriving DecidableEq, Repr

/-- Stand-in for the `JWT_SECRET` environment value. -/
def JWT_SECRET : String := "env-jwt-secret"

/-- Stand-in for `JWT_ACCESS_EXPIRES_IN` (a short validity window). -/
def JWT_ACCESS_EXPIRES_IN : Nat := 900

/-- Stand-in for `JWT_REFRESH_EXPIRES_IN` (a long validity window). -/
def JWT_REFRESH_EXPIRES_IN : Nat := 604800

/-- `generateAccessToken` (jwt.utils.js:9-15). -/
def generateAccessToken (p : JwtPayload) (now : Nat) : Token :=
  ⟨p, JWT_SECRET, "hr-backend", "hr-frontend", now + JWT_ACCESS_EXPIRES_IN⟩

/-- `generateRefreshToken` (jwt.utils.js:22-28): identical to the access
token apart from the expiry window. -/
def generateRefreshToken (p : JwtPayload) (now : Nat) : Token :=
  ⟨p, JWT_SECRET, "hr-backend", "hr-frontend", now + JWT_REFRESH_EXPIRES_IN⟩

inductive JwtError where
  | invalid
  | expired
  deriving DecidableEq, Repr

/-- `jwt.verify` with an issuer/audience option: signature (secret),
issuer, audience, then expiry. -/
def jwtVerify (t : Token) (secret iss aud : String) (now : Nat) :
    Except JwtError JwtPayload :=
  if t.secret ≠ secret ∨ t.issuer ≠ iss ∨ t.audience ≠ aud then .error .invalid
  else if t.exp ≤ now then .error .expired
  else .ok t.payload

/-- `verifyAccessToken` (jwt.utils.js:35-40). -/
def verifyAccessToken (t : Token) (now : Nat) : Except JwtError JwtPayload :=
  jwtVerify t JWT_SECRET "hr-backend" "hr-frontend" now

/-- `verifyRefreshToken` (jwt.utils.js:47-52): the very same check as
`verifyAccessToken`. -/
def verifyRefreshToken (t : Token) (now : Nat) : Except JwtError JwtPayload :=
  jwtVerify t JWT_SECRET "hr-backend" "hr-frontend" now

/-- Outcome of the authentication middleware: a 401 rejection or the
resolved principal handed to the next handler. -/
inductive AuthOutcome where
  | reject (status : Nat) (message : String)
  | proceed (principal : Principal)
  deriving DecidableEq, Repr

/-- `authenticateToken` (auth.middleware.js:11-57): extract and verify the
bearer token as an access token, then resolve and gate the user row. -/
def authenticateToken (tok : Option Token) (now : Nat) (st : Store)
    (findErr : Option String) : AuthOutcome × List Op :=
  match tok with
  | none => (.reject 401 "Access token is required", [])
  | some t =>
    match verifyAccessToken t now with
    | .error .invalid => (.reject 401 "Invalid token", [])
    | .error .expired => (.reject 401 "Token has expired", [])
    | .ok decoded =>
      match UserService.findById decoded.userId st findErr with
      | (.error _, tr) => (.reject 401 "Authentication failed", tr)
      | (.ok none, tr) => (.reject 401 "User not found", tr)
      | (.ok (some u), tr) =>
        if !u.is_active then (.reject 401 "Account is deactivated", tr)
        else (.proceed ⟨u.id, u.role⟩, tr)

/-- `refreshToken` controller (part_005:88-117): the one endpoint meant to
consume refresh tokens. -/
def refreshTokenController (rt : Option Token) (now : Nat) (st : Store)
    (findErr : Option String) : Resp (Token × Token) × List Op :=
  match rt with
  | none => (sendUnauthorizedResponse "Refresh token is required", [])
  | some t =>
    match verifyRefreshToken t now with
    | .error .invalid => (sendUnauthorizedResponse "Invalid refresh token", [])
    | .error .expired => (sendUnauthorizedResponse "Refresh token has expired", [])
    | .ok decoded =>
      match UserService.findById decoded.userId st findErr with
      | (.error _, tr) => (sendErrorResponse 500 "Failed to refresh token", tr)
      | (.ok none, tr) => (sendUnauthorizedResponse "User not found", tr)
      | (.ok (some u), tr) =>
        if !u.is_active then (sendUnauthorizedResponse "Account is deactivated", tr)
        else
          (sendSuccessResponse 200 "Token refreshed successfully"
            (some (generateAccessToken ⟨u.id, u.email, u.role⟩ now,
              generateRefreshToken ⟨u.id, u.email, u.role⟩ now)), tr)

-- Sanity checks of the binary64 model against independently computed
-- exact values of double arithmetic.
theorem fl_tenth : (fl ⟨1, 10⟩).eq ⟨3602879701896397, 36028797018963968⟩ := by
  decide

theorem fl_fifth : (fl ⟨2, 10⟩).eq ⟨3602879701896397, 18014398509481984⟩ := by
  decide

theorem fl_tenth_add_fifth :
    (jsAdd (fl ⟨1, 10⟩) (fl ⟨2, 10⟩)).eq ⟨1351079888211149, 4503599627370496⟩ := by
  decide

theorem fl_1599 : (fl ⟨1599, 100⟩).eq ⟨9001569755206779, 562949953421312⟩ := by
  decide

/-! ## C1 — order total arithmetic -/

/-- C1 counterexample: the claim "the total_amount stored by order creation
equals the sum of price × quantity computed in exact decimal arithmetic"
is false: for items [(price 0.1, qty 1), (price 0.2, qty 1)] creation
succeeds, but the stored total is the binary64 accumulation
0.30000000000000004, not the exact decimal 0.3. -/
theorem C1_counterexample :
    ((OrderService.create ⟨"u-1", [parsedItem 1 1 1 10, parsedItem 1 1 2 10], some "pending"⟩
        emptyStore ⟨none, none, none⟩).1.toOption.map fun ow =>
          decide (ow.1.total_amount.eq (decimalTotal [(⟨1, 10⟩, 1), (⟨2, 10⟩, 1)]))) =
      some false := by
  decide

/-- C1 (amended): the total stored by `OrderService.create` is the binary64
floating-point accumulation of `parseFloat(price) * parseInt(quantity)`
(`serviceTotal`), not an exact decimal sum. For the spec's example
[(15.99, 2), (15.99, 1)] that accumulation happens to equal the binary64
value nearest 47.97 (displayed as 47.97), but for [(0.1, 1), (0.2, 1)] it
differs from the exact decimal total 0.3. -/
theorem C1_amended :
    (∀ (od : OrderData) (st : Store),
        od.user_id ≠ "" → od.items ≠ [] →
        (∀ it ∈ od.items, itemFieldsOk it = true) →
        (OrderService.create od st ⟨none, none, none⟩).1 =
          Except.ok (⟨st.nextOrderId, od.user_id, strOrDefault od.status "pending",
            serviceTotal od.items⟩,
            od.items.map fun it => ⟨st.nextOrderId, it.product_id, jsTrunc it.quantity,
              it.price⟩)) ∧
    (serviceTotal [parsedItem 1 2 1599 100, parsedItem 1 1 1599 100]).eq (fl ⟨4797, 100⟩) ∧
    ¬ (serviceTotal [parsedItem 1 1 1 10, parsedItem 1 1 2 10]).eq
        (decimalTotal [(⟨1, 10⟩, 1), (⟨2, 10⟩, 1)]) := by
  refine ⟨?_, by decide, by decide⟩
  intro od st h1 h2 h3
  have hne : ¬ (od.items.isEmpty = true) := by
    simp only [List.isEmpty_iff]
    exact h2
  have hany : ¬ (od.items.any (fun it => !(itemFieldsOk it)) = true) := by
    simp only [List.any_eq_true]
    rintro ⟨it, hit, hbad⟩
    rw [h3 it hit] at hbad
    simp at hbad
  unfold OrderService.create
  rw [if_neg h1, if_neg hne, if_neg hany]

/-- C1 witness: the amended statement applied to a concrete order. -/
theorem C1_witness :
    (OrderService.create ⟨"u-7", [parsedItem 3 2 1599 100], some "pending"⟩ emptyStore
        ⟨none, none, none⟩).1 =
      Except.ok (⟨1, "u-7", "pending", serviceTotal [parsedItem 3 2 1599 100]⟩,
        [parsedItem 3 2 1599 100].map fun it => ⟨1, it.product_id, jsTrunc it.quantity,
          it.price⟩) :=
  C1_amended.1 ⟨"u-7", [parsedItem 3 2 1599 100], some "pending"⟩ emptyStore
    (by decide) (by decide) (by decide)

/-! ## C2 — order-create compensation -/

/-- C2 counterexample: the claim "the compensating delete … so the order
row no longer exists afterward; and if the compensating delete itself
fails, both the orphan order and the original insert error are surfaced"
is false: with the item insert and the compensating delete both failing,
the surfaced error is exactly the original item-insert message with no
trace of the compensation failure, and the orphan order row still exists. -/
theorem C2_counterexample :
    (OrderService.create ⟨"u-1", [parsedItem 1 1 1 10], some "pending"⟩ emptyStore
        ⟨none, some "order_items insert failed", some "orders delete failed"⟩).1 =
      Except.error "order_items insert failed" ∧
    ((OrderService.create ⟨"u-1", [parsedItem 1 1 1 10], some "pending"⟩ emptyStore
        ⟨none, some "order_items insert failed", some "orders delete failed"⟩).2.1.orders.find?
      (fun o => o.id = 1)).isSome = true := by
  decide

/-- C2 (amended): when the order-items insert fails after the order insert
succeeded, the compensating delete is always issued before the failure is
surfaced; if the delete succeeds the order row no longer exists, but if it
fails the orphan row remains and the caller still sees only the original
item-insert error — the compensation failure is silently discarded. -/
theorem C2_amended :
    ∀ (od : OrderData) (st : Store) (m : String) (dErr : Option String),
      od.user_id ≠ "" → od.items ≠ [] →
      (∀ it ∈ od.items, itemFieldsOk it = true) →
      st.orders.find? (fun o => o.id = st.nextOrderId) = none →
      (OrderService.create od st ⟨none, some m, dErr⟩).1 = Except.error m ∧
      Op.deleteOrderStmt ∈ (OrderService.create od st ⟨none, some m, dErr⟩).2.2 ∧
      (dErr = none →
        ((OrderService.create od st ⟨none, some m, dErr⟩).2.1.orders.find?
          (fun o => o.id = st.nextOrderId)) = none) ∧
      (dErr.isSome = true →
        ((OrderService.create od st ⟨none, some m, dErr⟩).2.1.orders.find?
          (fun o => o.id = st.nextOrderId)) =
          some ⟨st.nextOrderId, od.user_id, strOrDefault od.status "pending",
            serviceTotal od.items⟩) := by
  intro od st m dErr h1 h2 h3 hfresh
  have hne : ¬ (od.items.isEmpty = true) := by
    simp only [List.isEmpty_iff]; exact h2
  have hany : ¬ (od.items.any (fun it => !(itemFieldsOk it)) = true) := by
    simp only [List.any_eq_true]
    rintro ⟨it, hit, hbad⟩
    rw [h3 it hit] at hbad
    simp at hbad
  unfold OrderService.create
  rw [if_neg h1, if_neg hne, if_neg hany]
  refine ⟨rfl, by simp, ?_, ?_⟩
  · intro hd
    subst hd
    simp only [Option.isSome_none, Bool.false_eq_true, if_false]
    rw [List.find?_eq_none]
    intro x hx
    have := List.mem_filter.mp hx
    simpa using this.2
  · intro hd
    simp only [hd, if_true]
    rw [List.find?_append, hfresh]
    simp

/-- C2 witness: the amended statement applied to a concrete failing
schedule (item insert fails, compensating delete fails too). -/
theorem C2_witness :
    (OrderService.create ⟨"u-1", [parsedItem 1 1 1 10], some "pending"⟩ emptyStore
        ⟨none, some "boom", some "db down"⟩).1 = Except.error "boom" ∧
    Op.deleteOrderStmt ∈ (OrderService.create ⟨"u-1", [parsedItem 1 1 1 10], some "pending"⟩
        emptyStore ⟨none, some "boom", some "db down"⟩).2.2 ∧
    ((OrderService.create ⟨"u-1", [parsedItem 1 1 1 10], some "pending"⟩ emptyStore
        ⟨none, some "boom", some "db down"⟩).2.1.orders.find?
      (fun o => o.id = emptyStore.nextOrderId)) =
      some ⟨emptyStore.nextOrderId, "u-1", strOrDefault (some "pending") "pending",
        serviceTotal [parsedItem 1 1 1 10]⟩ :=
  ⟨(C2_amended ⟨"u-1", [parsedItem 1 1 1 10], some "pending"⟩ emptyStore "boom" (some "db down")
      (by decide) (by decide) (by decide) (by decide)).1,
    (C2_amended ⟨"u-1", [parsedItem 1 1 1 10], some "pending"⟩ emptyStore "boom" (some "db down")
      (by decide) (by decide) (by decide) (by decide)).2.1,
    (C2_amended ⟨"u-1", [parsedItem 1 1 1 10], some "pending"⟩ emptyStore "boom" (some "db down")
      (by decide) (by decide) (by decide) (by decide)).2.2.2 rfl⟩

/-! ## C3 — order-creation validation -/

theorem validateItem_none_iff (it : ReqItem) : validateItem it = none ↔ goodReqItem it := by
  unfold validateItem goodReqItem itemFieldsOk truthyNum
  by_cases h1 : it.product_id.num = 0 <;> by_cases h2 : it.quantity.num = 0 <;>
    by_cases h3 : it.price.num = 0 <;> by_cases h4 : jsTrunc it.quantity < 1 <;>
      by_cases h5 : Frac.lt it.price ⟨0, 1⟩ <;>
    simp [h1, h2, h3, h4, h5] <;> omega

theorem firstItemError_none_iff : ∀ its : List ReqItem,
    firstItemError its = none ↔ ∀ it ∈ its, validateItem it = none := by
  intro its
  induction its with
  | nil => simp [firstItemError]
  | cons it rest ih =>
    unfold firstItemError
    cases hv : validateItem it with
    | some m => simp [hv]
    | none => simp [hv, ih]

theorem goodReqItem_fieldsOk (it : ReqItem) (h : goodReqItem it) : itemFieldsOk it = true := by
  obtain ⟨h1, h2, h3, _, _⟩ := h
  simp [itemFieldsOk, truthyNum, h1, h2, h3]

theorem create_trace_insertOrder : ∀ (od : OrderData) (st : Store) (sch : CreateSchedule),
    od.user_id ≠ "" → od.items ≠ [] → (∀ it ∈ od.items, itemFieldsOk it = true) →
    ∃ rest, (OrderService.create od st sch).2.2 = Op.insertOrder :: rest := by
  intro od st sch h1 h2 h3
  have hne : ¬ (od.items.isEmpty = true) := by simp only [List.isEmpty_iff]; exact h2
  have hany : ¬ (od.items.any (fun it => !(itemFieldsOk it)) = true) := by
    simp only [List.any_eq_true]
    rintro ⟨it, hit, hbad⟩
    rw [h3 it hit] at hbad
    simp at hbad
  unfold OrderService.create
  rw [if_neg h1, if_neg hne, if_neg hany]
  cases sch.orderInsertErr <;> cases sch.itemsInsertErr <;> exact ⟨_, rfl⟩

/-- C3 counterexample: the claim "for every input whose items all carry
product_id, integer quantity ≥ 1 and price ≥ 0 (including price exactly 0)
validation passes and the order insert is attempted" is false: an item
with product_id 1, quantity 1 and price exactly 0 is rejected with a 400
validation error by the truthiness check, and no store call is issued. -/
theorem C3_counterexample :
    createOrder ⟨"u-1", "user"⟩ (some [parsedItem 1 1 0 1]) none emptyStore ⟨none, none, none⟩ =
      (sendErrorResponse 400 "Each item must have product_id, quantity, and price",
        emptyStore, []) := by
  decide

/-- C3 (amended): order creation rejects with a 400 validation error and no
store call exactly when the items list is empty or some item fails the
controller's checks — truthy (nonzero) product_id, quantity and price,
`parseInt(quantity) ≥ 1`, `parseFloat(price) ≥ 0`; so price exactly 0 is
rejected (falsy), while a fractional quantity ≥ 1 is accepted. When every
item passes, the order insert is attempted. -/
theorem C3_amended :
    ∀ (principal : Principal) (its : List ReqItem) (status : Option String) (st : Store)
      (sch : CreateSchedule),
      principal.id ≠ "" →
      ((∃ m, createOrder principal (some its) status st sch =
          (sendErrorResponse 400 m, st, [])) ↔
        ¬ (its ≠ [] ∧ ∀ it ∈ its, goodReqItem it)) ∧
      ((its ≠ [] ∧ ∀ it ∈ its, goodReqItem it) →
        Op.insertOrder ∈ (createOrder principal (some its) status st sch).2.2) := by
  intro p its status st sch hp
  by_cases hne : its = []
  · subst hne
    constructor
    · constructor
      · intro _ hv
        exact absurd rfl hv.1
      · intro _
        exact ⟨"Order must have at least one item", by simp [createOrder]⟩
    · intro hv
      exact absurd rfl hv.1
  · by_cases hgood : ∀ it ∈ its, goodReqItem it
    · have hfieldok : ∀ it ∈ its, itemFieldsOk it = true :=
        fun it h => goodReqItem_fieldsOk it (hgood it h)
      have hfe : firstItemError its = none :=
        (firstItemError_none_iff its).mpr fun it h => (validateItem_none_iff it).mpr (hgood it h)
      have hEmpty : its.isEmpty = false := by simp [List.isEmpty_iff, hne]
      obtain ⟨rest, htr⟩ := create_trace_insertOrder
        ⟨p.id, its, some (strOrDefault status "pending")⟩ st sch hp hne hfieldok
      have hsame : (createOrder p (some its) status st sch).2.2 =
          (OrderService.create ⟨p.id, its, some (strOrDefault status "pending")⟩ st sch).2.2 := by
        simp only [createOrder, hEmpty, hfe, Bool.false_eq_true, if_false]
        rcases hcr : OrderService.create ⟨p.id, its, some (strOrDefault status "pending")⟩ st sch
          with ⟨res, st', tr⟩
        cases res with
        | ok ow => simp
        | error m => by_cases hm : strIncludes m "required" || strIncludes m "must have" <;>
            simp [hm]
      constructor
      · constructor
        · rintro ⟨m, heq⟩ hv
          have h3 : (createOrder p (some its) status st sch).2.2 = [] := by rw [heq]
          rw [hsame, htr] at h3
          cases h3
        · intro hv
          exact absurd ⟨hne, hgood⟩ hv
      · intro _
        rw [hsame, htr]
        exact List.mem_cons_self _ _
    · have hfe : firstItemError its ≠ none := by
        intro h
        exact hgood fun it hmem =>
          (validateItem_none_iff it).mp ((firstItemError_none_iff its).mp h it hmem)
      obtain ⟨m, hm⟩ := Option.ne_none_iff_exists'.mp hfe
      have hEmpty : its.isEmpty = false := by simp [List.isEmpty_iff, hne]
      constructor
      · constructor
        · intro _ hv
          exact hgood hv.2
        · intro _
          refine ⟨m, ?_⟩
          simp only [createOrder, hEmpty, hm, Bool.false_eq_true, if_false]
      · intro hv
        exact absurd hv.2 hgood

/-- C3 witness: the amended statement applied to one valid concrete item. -/
theorem C3_witness :
    ((∃ m, createOrder ⟨"u-1", "user"⟩ (some [parsedItem 2 1 1599 100]) none emptyStore
        ⟨none, none, none⟩ = (sendErrorResponse 400 m, emptyStore, [])) ↔
      ¬ ([parsedItem 2 1 1599 100] ≠ [] ∧
        ∀ it ∈ [parsedItem 2 1 1599 100], goodReqItem it)) ∧
    (([parsedItem 2 1 1599 100] ≠ [] ∧ ∀ it ∈ [parsedItem 2 1 1599 100], goodReqItem it) →
      Op.insertOrder ∈ (createOrder ⟨"u-1", "user"⟩ (some [parsedItem 2 1 1599 100]) none
        emptyStore ⟨none, none, none⟩).2.2) :=
  C3_amended ⟨"u-1", "user"⟩ [parsedItem 2 1 1599 100] none emptyStore ⟨none, none, none⟩
    (by decide)

/-! ## C4 — propagation of store failures in category deletion -/

/-- C4 counterexample: the claim "if the query that checks for referencing
products fails, that failure is surfaced and the category delete statement
is not executed" is false: with the products check failing on a category
that does have a referencing product, the failure is swallowed, the delete
statement runs, the category row is removed, and the call reports success. -/
theorem C4_counterexample :
    (CategoryService.delete 7
        ⟨[], [⟨7, "Teas"⟩], [⟨1, "Chamomile", ⟨1599, 100⟩, 10, some 7⟩], [], [], 1⟩
        ⟨none, some "connection reset", none⟩).1 = Except.ok true ∧
    (CategoryService.delete 7
        ⟨[], [⟨7, "Teas"⟩], [⟨1, "Chamomile", ⟨1599, 100⟩, 10, some 7⟩], [], [], 1⟩
        ⟨none, some "connection reset", none⟩).2.2 =
      [Op.selectCategories, Op.selectProducts, Op.deleteCategoryStmt] ∧
    (CategoryService.delete 7
        ⟨[], [⟨7, "Teas"⟩], [⟨1, "Chamomile", ⟨1599, 100⟩, 10, some 7⟩], [], [], 1⟩
        ⟨none, some "connection reset", none⟩).2.1.categories = [] := by
  decide

/-- C4 (amended): in category deletion, failures of the existence lookup
and of the delete statement are surfaced to the caller, but a failure of
the products-check query is logged and swallowed: the conflict guard is
skipped and the delete statement still executes, reporting success. -/
theorem C4_amended :
    ∀ (id : Nat) (st : Store) (m : String),
      (∀ pcErr dErr, (CategoryService.delete id st ⟨some m, pcErr, dErr⟩).1 = Except.error m ∧
        Op.deleteCategoryStmt ∉ (CategoryService.delete id st ⟨some m, pcErr, dErr⟩).2.2) ∧
      ((st.categories.find? fun c => c.id = id).isSome = true →
        (st.products.filter fun p => p.category_id = some id) = [] →
        (CategoryService.delete id st ⟨none, none, some m⟩).1 = Except.error m) ∧
      ((st.categories.find? fun c => c.id = id).isSome = true →
        (CategoryService.delete id st ⟨none, some m, none⟩).1 = Except.ok true ∧
        Op.deleteCategoryStmt ∈ (CategoryService.delete id st ⟨none, some m, none⟩).2.2) := by
  intro id st m
  refine ⟨?_, ?_, ?_⟩
  · intro pcErr dErr
    constructor
    · rfl
    · simp [CategoryService.delete, CategoryService.findById]
  · intro hsome hfilter
    obtain ⟨c, hc⟩ := Option.isSome_iff_exists.mp hsome
    simp only [CategoryService.delete, CategoryService.findById, hc, hfilter]
    rfl
  · intro hsome
    obtain ⟨c, hc⟩ := Option.isSome_iff_exists.mp hsome
    constructor
    · simp only [CategoryService.delete, CategoryService.findById, hc]
      rfl
    · simp [CategoryService.delete, CategoryService.findById, hc]

/-- C4 witness: the amended statement applied to concrete stores — a
failing lookup surfaces, a failing delete surfaces, a failing products
check is swallowed and the delete still runs. -/
theorem C4_witness :
    ((CategoryService.delete 7
        ⟨[], [⟨7, "Teas"⟩], [⟨1, "Chamomile", ⟨1599, 100⟩, 10, some 7⟩], [], [], 1⟩
        ⟨some "conn reset", some "pc down", none⟩).1 = Except.error "conn reset" ∧
      Op.deleteCategoryStmt ∉ (CategoryService.delete 7
        ⟨[], [⟨7, "Teas"⟩], [⟨1, "Chamomile", ⟨1599, 100⟩, 10, some 7⟩], [], [], 1⟩
        ⟨some "conn reset", some "pc down", none⟩).2.2) ∧
    (CategoryService.delete 7 ⟨[], [⟨7, "Teas"⟩], [], [], [], 1⟩
        ⟨none, none, some "conn reset"⟩).1 = Except.error "conn reset" ∧
    ((CategoryService.delete 7
        ⟨[], [⟨7, "Teas"⟩], [⟨1, "Chamomile", ⟨1599, 100⟩, 10, some 7⟩], [], [], 1⟩
        ⟨none, some "conn reset", none⟩).1 = Except.ok true ∧
      Op.deleteCategoryStmt ∈ (CategoryService.delete 7
        ⟨[], [⟨7, "Teas"⟩], [⟨1, "Chamomile", ⟨1599, 100⟩, 10, some 7⟩], [], [], 1⟩
        ⟨none, some "conn reset", none⟩).2.2) :=
  ⟨(C4_amended 7 ⟨[], [⟨7, "Teas"⟩], [⟨1, "Chamomile", ⟨1599, 100⟩, 10, some 7⟩], [], [], 1⟩
      "conn reset").1 (some "pc down") none,
    (C4_amended 7 ⟨[], [⟨7, "Teas"⟩], [], [], [], 1⟩ "conn reset").2.1 (by decide) (by decide),
    (C4_amended 7 ⟨[], [⟨7, "Teas"⟩], [⟨1, "Chamomile", ⟨1599, 100⟩, 10, some 7⟩], [], [], 1⟩
      "conn reset").2.2 (by decide)⟩

/-! ## C5 — category deletion guard -/

theorem categoryDelete_conflict :
    ∀ (id : Nat) (st : Store) (c : CategoryRow),
      (st.categories.find? fun x => x.id = id) = some c →
      (st.products.filter fun p => p.category_id = some id) ≠ [] →
      CategoryService.delete id st ⟨none, none, none⟩ =
        (Except.error "Cannot delete category with existing products", st,
          [Op.selectCategories, Op.selectProducts]) := by
  intro id st c hc hne
  obtain ⟨x, xs, hcons⟩ := List.exists_cons_of_ne_nil hne
  simp only [CategoryService.delete, CategoryService.findById, hc, hcons]
  rfl

theorem categoryDelete_success :
    ∀ (id : Nat) (st : Store) (c : CategoryRow),
      (st.categories.find? fun x => x.id = id) = some c →
      (st.products.filter fun p => p.category_id = some id) = [] →
      CategoryService.delete id st ⟨none, none, none⟩ =
        (Except.ok true, { st with categories := st.categories.filter fun x => x.id ≠ id },
          [Op.selectCategories, Op.selectProducts, Op.deleteCategoryStmt]) := by
  intro id st c hc hnil
  simp only [CategoryService.delete, CategoryService.findById, hc, hnil]
  rfl

/-- C5 counterexample: the claim "deleting a category that has at least one
referencing product is rejected with kind conflict, mapped to HTTP status
409" is false: the controller maps the 'existing products' rejection to
HTTP 400, not 409. -/
theorem C5_counterexample :
    deleteCategory (some 1)
        ⟨[], [⟨1, "Teas"⟩], [⟨5, "Green Tea", ⟨1299, 100⟩, 3, some 1⟩], [], [], 1⟩
        ⟨none, none, none⟩ =
      (sendErrorResponse 400 "Cannot delete category with existing products",
        ⟨[], [⟨1, "Teas"⟩], [⟨5, "Green Tea", ⟨1299, 100⟩, 3, some 1⟩], [], [], 1⟩,
        [Op.selectCategories, Op.selectProducts]) ∧
    (deleteCategory (some 1)
        ⟨[], [⟨1, "Teas"⟩], [⟨5, "Green Tea", ⟨1299, 100⟩, 3, some 1⟩], [], [], 1⟩
        ⟨none, none, none⟩).1.status ≠ 409 := by
  decide

/-- C5 (amended): deleting a category with at least one referencing product
is rejected before the delete statement by an existence check carrying the
specific message "Cannot delete category with existing products", but the
controller maps it to HTTP 400, not 409; deleting a category with zero
referencing products succeeds and removes the row. -/
theorem C5_amended :
    ∀ (id : Nat) (st : Store) (c : CategoryRow),
      (st.categories.find? fun x => x.id = id) = some c →
      ((∃ p ∈ st.products, p.category_id = some id) →
        deleteCategory (some id) st ⟨none, none, none⟩ =
          (sendErrorResponse 400 "Cannot delete category with existing products", st,
            [Op.selectCategories, Op.selectProducts])) ∧
      ((∀ p ∈ st.products, p.category_id ≠ some id) →
        (deleteCategory (some id) st ⟨none, none, none⟩).1 =
          sendSuccessResponse 200 "Category deleted successfully" none ∧
        (deleteCategory (some id) st ⟨none, none, none⟩).2.1.categories =
          st.categories.filter (fun x => x.id ≠ id) ∧
        Op.deleteCategoryStmt ∈ (deleteCategory (some id) st ⟨none, none, none⟩).2.2) := by
  intro id st c hc
  constructor
  · rintro ⟨p, hp, hcat⟩
    have hne : (st.products.filter fun q => q.category_id = some id) ≠ [] := by
      intro h
      rw [List.filter_eq_nil_iff] at h
      exact h p hp (by simp [hcat])
    have hdel := categoryDelete_conflict id st c hc hne
    have h1 : strIncludes "Cannot delete category with existing products" "not found" = false := by
      decide
    have h2 : strIncludes "Cannot delete category with existing products" "existing products" =
        true := by decide
    simp only [deleteCategory, hdel, h1, h2, Bool.false_eq_true, if_false, if_true]
  · intro hall
    have hnil : (st.products.filter fun q => q.category_id = some id) = [] := by
      rw [List.filter_eq_nil_iff]
      intro q hq
      simp [hall q hq]
    have hdel := categoryDelete_success id st c hc hnil
    simp only [deleteCategory, hdel]
    simp

/-- C5 witness: the amended statement applied to a store with one
referencing product (conflict path) and to a store with none (success
path). -/
theorem C5_witness :
    deleteCategory (some 1)
        ⟨[], [⟨1, "Teas"⟩], [⟨5, "Green Tea", ⟨1299, 100⟩, 3, some 1⟩], [], [], 1⟩
        ⟨none, none, none⟩ =
      (sendErrorResponse 400 "Cannot delete category with existing products",
        ⟨[], [⟨1, "Teas"⟩], [⟨5, "Green Tea", ⟨1299, 100⟩, 3, some 1⟩], [], [], 1⟩,
        [Op.selectCategories, Op.selectProducts]) ∧
    ((deleteCategory (some 1) ⟨[], [⟨1, "Teas"⟩], [], [], [], 1⟩ ⟨none, none, none⟩).1 =
        sendSuccessResponse 200 "Category deleted successfully" none ∧
      (deleteCategory (some 1) ⟨[], [⟨1, "Teas"⟩], [], [], [], 1⟩
          ⟨none, none, none⟩).2.1.categories =
        (⟨[], [⟨1, "Teas"⟩], [], [], [], 1⟩ : Store).categories.filter (fun x => x.id ≠ 1) ∧
      Op.deleteCategoryStmt ∈ (deleteCategory (some 1) ⟨[], [⟨1, "Teas"⟩], [], [], [], 1⟩
          ⟨none, none, none⟩).2.2) :=
  ⟨(C5_amended 1 ⟨[], [⟨1, "Teas"⟩], [⟨5, "Green Tea", ⟨1299, 100⟩, 3, some 1⟩], [], [], 1⟩
      ⟨1, "Teas"⟩ (by decide)).1
      ⟨⟨5, "Green Tea", ⟨1299, 100⟩, 3, some 1⟩, by decide, rfl⟩,
    (C5_amended 1 ⟨[], [⟨1, "Teas"⟩], [], [], [], 1⟩ ⟨1, "Teas"⟩ (by decide)).2 (by decide)⟩

/-! ## C6 — order ownership gate -/

/-- C6: for every existing order, fetching it by id succeeds (200) exactly
when the principal's role is admin or the order's user_id equals the
principal's id; a non-admin non-owner receives 403 "Access denied", which
is distinct from the middleware's unauthenticated 401 outcomes and from
the 404 not-found outcome. -/
theorem C6_theorem :
    ∀ (st : Store) (principal : Principal) (id : Nat) (o : OrderRow),
      (st.orders.find? fun x => x.id = id) = some o →
      ((getOrderById principal (some id) st ⟨none, none⟩).1.status = 200 ↔
        (principal.role = "admin" ∨ o.user_id = principal.id)) ∧
      (principal.role ≠ "admin" → o.user_id ≠ principal.id →
        (getOrderById principal (some id) st ⟨none, none⟩).1 =
          sendErrorResponse 403 "Access denied") ∧
      (∀ (now : Nat) (st' : Store) (fe : Option String),
        (authenticateToken none now st' fe).1 =
          AuthOutcome.reject 401 "Access token is required") ∧
      (∀ (st2 : Store) (id2 : Nat), (st2.orders.find? fun x => x.id = id2) = none →
        (getOrderById principal (some id2) st2 ⟨none, none⟩).1 =
          sendNotFoundResponse "Order not found") ∧
      ((403 : Nat) ≠ 401 ∧ (403 : Nat) ≠ 404) := by
  intro st p id o hfind
  refine ⟨?_, ?_, ?_, ?_, by decide⟩
  · simp only [getOrderById, OrderService.findById, hfind]
    by_cases hcond : p.role ≠ "admin" ∧ o.user_id ≠ p.id
    · rw [if_pos hcond]
      simp only [sendErrorResponse]
      constructor
      · intro h
        cases h
      · intro h
        rcases h with h | h
        · exact absurd h hcond.1
        · exact absurd h hcond.2
    · rw [if_neg hcond]
      simp only [sendSuccessResponse]
      constructor
      · intro _
        by_cases hadm : p.role = "admin"
        · exact Or.inl hadm
        · push_neg at hcond
          exact Or.inr (hcond hadm)
      · intro _
        trivial
  · intro h1 h2
    simp only [getOrderById, OrderService.findById, hfind]
    rw [if_pos ⟨h1, h2⟩]
  · intro now st' fe
    rfl
  · intro st2 id2 hnone
    simp only [getOrderById, OrderService.findById, hnone]

/-- C6 witness: the gate applied to a concrete store where user "u-1"
requests order 1 owned by "u-2" (403), an unauthenticated request (401),
and a missing order (404). -/
theorem C6_witness :
    ((getOrderById ⟨"u-1", "user"⟩ (some 1)
        ⟨[], [], [], [⟨1, "u-2", "pending", ⟨0, 1⟩⟩], [], 2⟩ ⟨none, none⟩).1.status = 200 ↔
      ((⟨"u-1", "user"⟩ : Principal).role = "admin" ∨
        (⟨1, "u-2", "pending", ⟨0, 1⟩⟩ : OrderRow).user_id = (⟨"u-1", "user"⟩ : Principal).id)) ∧
    (getOrderById ⟨"u-1", "user"⟩ (some 1)
        ⟨[], [], [], [⟨1, "u-2", "pending", ⟨0, 1⟩⟩], [], 2⟩ ⟨none, none⟩).1 =
      sendErrorResponse 403 "Access denied" ∧
    (authenticateToken none 5 emptyStore none).1 =
      AuthOutcome.reject 401 "Access token is required" ∧
    (getOrderById ⟨"u-1", "user"⟩ (some 3) emptyStore ⟨none, none⟩).1 =
      sendNotFoundResponse "Order not found" ∧
    ((403 : Nat) ≠ 401 ∧ (403 : Nat) ≠ 404) :=
  ⟨(C6_theorem ⟨[], [], [], [⟨1, "u-2", "pending", ⟨0, 1⟩⟩], [], 2⟩ ⟨"u-1", "user"⟩ 1
      ⟨1, "u-2", "pending", ⟨0, 1⟩⟩ (by decide)).1,
    (C6_theorem ⟨[], [], [], [⟨1, "u-2", "pending", ⟨0, 1⟩⟩], [], 2⟩ ⟨"u-1", "user"⟩ 1
      ⟨1, "u-2", "pending", ⟨0, 1⟩⟩ (by decide)).2.1 (by decide) (by decide),
    (C6_theorem ⟨[], [], [], [⟨1, "u-2", "pending", ⟨0, 1⟩⟩], [], 2⟩ ⟨"u-1", "user"⟩ 1
      ⟨1, "u-2", "pending", ⟨0, 1⟩⟩ (by decide)).2.2.1 5 emptyStore none,
    (C6_theorem ⟨[], [], [], [⟨1, "u-2", "pending", ⟨0, 1⟩⟩], [], 2⟩ ⟨"u-1", "user"⟩ 1
      ⟨1, "u-2", "pending", ⟨0, 1⟩⟩ (by decide)).2.2.2.1 emptyStore 3 (by decide),
    (C6_theorem ⟨[], [], [], [⟨1, "u-2", "pending", ⟨0, 1⟩⟩], [], 2⟩ ⟨"u-1", "user"⟩ 1
      ⟨1, "u-2", "pending", ⟨0, 1⟩⟩ (by decide)).2.2.2.2⟩

/-! ## C7 — refresh tokens versus access-protected operations -/

/-- C7 counterexample: the claim "for every valid, unexpired refresh token
presented as the bearer credential to an access-protected operation, the
authentication step rejects it" is false: a freshly issued refresh token
passes `verifyAccessToken` (the two verifiers are the same check) and the
middleware resolves and accepts the principal. -/
theorem C7_counterexample :
    (authenticateToken (some (generateRefreshToken ⟨"u-1", "a@b.c", "user"⟩ 0)) 1
        ⟨[⟨"u-1", "a@b.c", "user", true⟩], [], [], [], [], 1⟩ none).1 =
      AuthOutcome.proceed ⟨"u-1", "user"⟩ := by
  decide

/-- C7 (amended): access and refresh tokens are verified by the identical
check (same secret, issuer and audience, no class marker), so a valid
unexpired refresh token is accepted both by the access-protected
authentication step and by the token-refresh operation; the two classes
differ only in their expiry window. -/
theorem C7_amended :
    (∀ (t : Token) (now : Nat), verifyAccessToken t now = verifyRefreshToken t now) ∧
    (∀ (p : JwtPayload) (iat now : Nat) (st : Store) (u : UserRow),
      now < iat + JWT_REFRESH_EXPIRES_IN →
      (st.users.find? fun x => x.id = p.userId) = some u → u.is_active = true →
      (authenticateToken (some (generateRefreshToken p iat)) now st none).1 =
        AuthOutcome.proceed ⟨u.id, u.role⟩) ∧
    (∀ (p : JwtPayload) (iat now : Nat) (st : Store) (u : UserRow),
      now < iat + JWT_REFRESH_EXPIRES_IN →
      (st.users.find? fun x => x.id = p.userId) = some u → u.is_active = true →
      (refreshTokenController (some (generateRefreshToken p iat)) now st none).1.status =
        200) := by
  refine ⟨fun _ _ => rfl, ?_, ?_⟩
  · intro p iat now st u hlt hfind hact
    have hnotexp : ¬ ((generateRefreshToken p iat).exp ≤ now) := by
      simp only [generateRefreshToken]
      omega
    simp only [authenticateToken, verifyAccessToken, jwtVerify]
    rw [if_neg (by simp [generateRefreshToken]), if_neg hnotexp]
    simp only [generateRefreshToken, UserService.findById, hfind, hact]
    simp
  · intro p iat now st u hlt hfind hact
    have hnotexp : ¬ ((generateRefreshToken p iat).exp ≤ now) := by
      simp only [generateRefreshToken]
      omega
    simp only [refreshTokenController, verifyRefreshToken, jwtVerify]
    rw [if_neg (by simp [generateRefreshToken]), if_neg hnotexp]
    simp only [generateRefreshToken, UserService.findById, hfind, hact]
    simp [sendSuccessResponse]

/-- C7 witness: the amended statement applied to a concrete user and a
refresh token issued at time 0, presented at time 1. -/
theorem C7_witness :
    (authenticateToken (some (generateRefreshToken ⟨"u-9", "x@y.z", "manager"⟩ 0)) 1
        ⟨[⟨"u-9", "x@y.z", "manager", true⟩], [], [], [], [], 1⟩ none).1 =
      AuthOutcome.proceed ⟨"u-9", "manager"⟩ ∧
    (refreshTokenController (some (generateRefreshToken ⟨"u-9", "x@y.z", "manager"⟩ 0)) 1
        ⟨[⟨"u-9", "x@y.z", "manager", true⟩], [], [], [], [], 1⟩ none).1.status = 200 :=
  ⟨C7_amended.2.1 ⟨"u-9", "x@y.z", "manager"⟩ 0 1
      ⟨[⟨"u-9", "x@y.z", "manager", true⟩], [], [], [], [], 1⟩ ⟨"u-9", "x@y.z", "manager", true⟩
      (by decide) (by decide) (by decide),
    C7_amended.2.2 ⟨"u-9", "x@y.z", "manager"⟩ 0 1
      ⟨[⟨"u-9", "x@y.z", "manager", true⟩], [], [], [], [], 1⟩ ⟨"u-9", "x@y.z", "manager", true⟩
      (by decide) (by decide) (by decide)⟩

/-! ## C8 — pagination bounds -/

/-- C8 counterexample: the claim "page×limit lies beyond N returns an empty
items array" is false as stated: with N = 5 rows, page = 1, limit = 10 we
have page×limit = 10 beyond 5, yet the returned items array holds all 5
rows (hasNextPage is still false). -/
theorem C8_counterexample :
    (5 : Nat) < 1 * 10 ∧
    ((getAllProducts (some 1) (some 10)
        ⟨[], [], [⟨1, "a", ⟨1, 1⟩, 0, none⟩, ⟨2, "b", ⟨1, 1⟩, 0, none⟩, ⟨3, "c", ⟨1, 1⟩, 0, none⟩,
          ⟨4, "d", ⟨1, 1⟩, 0, none⟩, ⟨5, "e", ⟨1, 1⟩, 0, none⟩], [], [], 1⟩
        none).1.data.map fun d => d.1.length) = some 5 ∧
    ((getAllProducts (some 1) (some 10)
        ⟨[], [], [⟨1, "a", ⟨1, 1⟩, 0, none⟩, ⟨2, "b", ⟨1, 1⟩, 0, none⟩, ⟨3, "c", ⟨1, 1⟩, 0, none⟩,
          ⟨4, "d", ⟨1, 1⟩, 0, none⟩, ⟨5, "e", ⟨1, 1⟩, 0, none⟩], [], [], 1⟩
        none).1.data.map fun d => d.2.hasNextPage) = some false := by
  decide

/-- C8 (amended): for every store of N rows and page, limit ≥ 1, the
product list returns N as the total and never fails; when the requested
window starts at or beyond N ((page−1)×limit ≥ N) the row slice is empty
and hasNextPage is false; in general hasNextPage = page < ⌈N/limit⌉ and
hasPrevPage = page > 1. -/
theorem C8_amended :
    ∀ (st : Store) (page limit : Nat), 1 ≤ page → 1 ≤ limit →
      (ProductService.findAll page limit st none).1 =
        Except.ok (rangeSlice st.products ((page - 1) * limit)
          ((page - 1) * limit + limit - 1), st.products.length) ∧
      (st.products.length ≤ (page - 1) * limit →
        rangeSlice st.products ((page - 1) * limit) ((page - 1) * limit + limit - 1) = []) ∧
      ((mkPagination page limit st.products.length).hasNextPage = true ↔
        page < (st.products.length + limit - 1) / limit) ∧
      (st.products.length ≤ (page - 1) * limit →
        (mkPagination page limit st.products.length).hasNextPage = false) ∧
      ((mkPagination page limit st.products.length).hasPrevPage = true ↔ 1 < page) := by
  intro st page limit hp hl
  refine ⟨rfl, ?_, ?_, ?_, ?_⟩
  · intro hbeyond
    unfold rangeSlice
    rw [List.drop_eq_nil_of_le hbeyond]
    simp
  · simp only [mkPagination, Int.toNat_natCast, decide_eq_true_eq]
    constructor
    · intro h
      exact_mod_cast h
    · intro h
      exact_mod_cast h
  · intro hbeyond
    simp only [mkPagination, Int.toNat_natCast]
    have hAB : (page - 1) * limit + limit = page * limit := by
      have h1 : (page - 1) + 1 = page := by omega
      calc (page - 1) * limit + limit = ((page - 1) + 1) * limit := by ring
        _ = page * limit := by rw [h1]
    have hlt : st.products.length + limit - 1 < page * limit := by
      generalize hA : (page - 1) * limit = A at hbeyond hAB
      generalize hB : page * limit = B at hAB ⊢
      omega
    have hdiv : (st.products.length + limit - 1) / limit < page :=
      (Nat.div_lt_iff_lt_mul (by omega)).mpr hlt
    have hnotlt : ¬ ((page : Int) < (((st.products.length + limit - 1) / limit : Nat) : Int)) := by
      rw [Int.not_lt]
      exact_mod_cast Nat.le_of_lt hdiv
    rw [decide_eq_false hnotlt]
  · simp only [mkPagination, decide_eq_true_eq]
    constructor
    · intro h
      exact_mod_cast h
    · intro h
      exact_mod_cast h

/-- C8 witness: the amended statement applied to a 5-row store at page 2,
limit 10 (window start 10 ≥ 5), with the beyond-the-end premises
discharged. -/
theorem C8_witness :
    (ProductService.findAll 2 10
        ⟨[], [], [⟨1, "a", ⟨1, 1⟩, 0, none⟩, ⟨2, "b", ⟨1, 1⟩, 0, none⟩, ⟨3, "c", ⟨1, 1⟩, 0, none⟩,
          ⟨4, "d", ⟨1, 1⟩, 0, none⟩, ⟨5, "e", ⟨1, 1⟩, 0, none⟩], [], [], 1⟩ none).1 =
      Except.ok (rangeSlice (⟨[], [], [⟨1, "a", ⟨1, 1⟩, 0, none⟩, ⟨2, "b", ⟨1, 1⟩, 0, none⟩,
          ⟨3, "c", ⟨1, 1⟩, 0, none⟩, ⟨4, "d", ⟨1, 1⟩, 0, none⟩, ⟨5, "e", ⟨1, 1⟩, 0, none⟩],
          [], [], 1⟩ : Store).products ((2 - 1) * 10) ((2 - 1) * 10 + 10 - 1),
        (⟨[], [], [⟨1, "a", ⟨1, 1⟩, 0, none⟩, ⟨2, "b", ⟨1, 1⟩, 0, none⟩,
          ⟨3, "c", ⟨1, 1⟩, 0, none⟩, ⟨4, "d", ⟨1, 1⟩, 0, none⟩, ⟨5, "e", ⟨1, 1⟩, 0, none⟩],
          [], [], 1⟩ : Store).products.length) ∧
    rangeSlice (⟨[], [], [⟨1, "a", ⟨1, 1⟩, 0, none⟩, ⟨2, "b", ⟨1, 1⟩, 0, none⟩,
        ⟨3, "c", ⟨1, 1⟩, 0, none⟩, ⟨4, "d", ⟨1, 1⟩, 0, none⟩, ⟨5, "e", ⟨1, 1⟩, 0, none⟩],
        [], [], 1⟩ : Store).products ((2 - 1) * 10) ((2 - 1) * 10 + 10 - 1) = [] ∧
    (mkPagination 2 10 (⟨[], [], [⟨1, "a", ⟨1, 1⟩, 0, none⟩, ⟨2, "b", ⟨1, 1⟩, 0, none⟩,
        ⟨3, "c", ⟨1, 1⟩, 0, none⟩, ⟨4, "d", ⟨1, 1⟩, 0, none⟩, ⟨5, "e", ⟨1, 1⟩, 0, none⟩],
        [], [], 1⟩ : Store).products.length).hasNextPage = false ∧
    ((mkPagination 2 10 (⟨[], [], [⟨1, "a", ⟨1, 1⟩, 0, none⟩, ⟨2, "b", ⟨1, 1⟩, 0, none⟩,
        ⟨3, "c", ⟨1, 1⟩, 0, none⟩, ⟨4, "d", ⟨1, 1⟩, 0, none⟩, ⟨5, "e", ⟨1, 1⟩, 0, none⟩],
        [], [], 1⟩ : Store).products.length).hasPrevPage = true ↔ 1 < 2) :=
  ⟨(C8_amended ⟨[], [], [⟨1, "a", ⟨1, 1⟩, 0, none⟩, ⟨2, "b", ⟨1, 1⟩, 0, none⟩,
      ⟨3, "c", ⟨1, 1⟩, 0, none⟩, ⟨4, "d", ⟨1, 1⟩, 0, none⟩, ⟨5, "e", ⟨1, 1⟩, 0, none⟩],
      [], [], 1⟩ 2 10 (by decide) (by decide)).1,
    (C8_amended ⟨[], [], [⟨1, "a", ⟨1, 1⟩, 0, none⟩, ⟨2, "b", ⟨1, 1⟩, 0, none⟩,
      ⟨3, "c", ⟨1, 1⟩, 0, none⟩, ⟨4, "d", ⟨1, 1⟩, 0, none⟩, ⟨5, "e", ⟨1, 1⟩, 0, none⟩],
      [], [], 1⟩ 2 10 (by decide) (by decide)).2.1 (by decide),
    (C8_amended ⟨[], [], [⟨1, "a", ⟨1, 1⟩, 0, none⟩, ⟨2, "b", ⟨1, 1⟩, 0, none⟩,
      ⟨3, "c", ⟨1, 1⟩, 0, none⟩, ⟨4, "d", ⟨1, 1⟩, 0, none⟩, ⟨5, "e", ⟨1, 1⟩, 0, none⟩],
      [], [], 1⟩ 2 10 (by decide) (by decide)).2.2.2.1 (by decide),
    (C8_amended ⟨[], [], [⟨1, "a", ⟨1, 1⟩, 0, none⟩, ⟨2, "b", ⟨1, 1⟩, 0, none⟩,
      ⟨3, "c", ⟨1, 1⟩, 0, none⟩, ⟨4, "d", ⟨1, 1⟩, 0, none⟩, ⟨5, "e", ⟨1, 1⟩, 0, none⟩],
      [], [], 1⟩ 2 10 (by decide) (by decide)).2.2.2.2⟩

/-! ## C9 — self-deactivation guard -/

/-- C9: a deactivate-user request whose target id equals the acting
principal's own id is rejected with 400 by the id comparison before the
deactivating update, the store is unchanged and no write statement is
issued; deactivating a different existing user sets that user's is_active
to false via an update that never removes rows (row count preserved). -/
theorem C9_theorem :
    (∀ (st : Store) (principal : Principal) (u : UserRow),
      (st.users.find? fun x => x.id = principal.id) = some u →
      (deactivateUser principal principal.id st ⟨none, none⟩).1 =
        sendErrorResponse 400 "You cannot deactivate your own account" ∧
      (deactivateUser principal principal.id st ⟨none, none⟩).2.1 = st ∧
      ((deactivateUser principal principal.id st ⟨none, none⟩).2.2.all
        fun op => !op.isWrite) = true) ∧
    (∀ (st : Store) (principal : Principal) (tid : String) (u : UserRow),
      tid ≠ principal.id →
      (st.users.find? fun x => x.id = tid) = some u →
      (deactivateUser principal tid st ⟨none, none⟩).1 =
        sendSuccessResponse 200 "User deactivated successfully" none ∧
      (deactivateUser principal tid st ⟨none, none⟩).2.1.users =
        st.users.map (fun x => if x.id = tid then { x with is_active := false } else x) ∧
      (deactivateUser principal tid st ⟨none, none⟩).2.1.users.length = st.users.length) := by
  constructor
  · intro st p u hfind
    simp only [deactivateUser, UserService.findById, hfind, if_pos rfl]
    exact ⟨rfl, rfl, rfl⟩
  · intro st p tid u hne hfind
    simp only [deactivateUser, UserService.findById, hfind, if_neg hne, UserService.deactivate]
    refine ⟨trivial, trivial, by simp⟩

/-- C9 witness: the guard applied to a concrete admin targeting their own
id, and the same admin deactivating another user. -/
theorem C9_witness :
    ((deactivateUser ⟨"u-1", "admin"⟩ "u-1"
        ⟨[⟨"u-1", "a@b.c", "admin", true⟩, ⟨"u-2", "c@d.e", "user", true⟩], [], [], [], [], 1⟩
        ⟨none, none⟩).1 =
      sendErrorResponse 400 "You cannot deactivate your own account" ∧
      (deactivateUser ⟨"u-1", "admin"⟩ "u-1"
        ⟨[⟨"u-1", "a@b.c", "admin", true⟩, ⟨"u-2", "c@d.e", "user", true⟩], [], [], [], [], 1⟩
        ⟨none, none⟩).2.1 =
        ⟨[⟨"u-1", "a@b.c", "admin", true⟩, ⟨"u-2", "c@d.e", "user", true⟩], [], [], [], [], 1⟩ ∧
      ((deactivateUser ⟨"u-1", "admin"⟩ "u-1"
        ⟨[⟨"u-1", "a@b.c", "admin", true⟩, ⟨"u-2", "c@d.e", "user", true⟩], [], [], [], [], 1⟩
        ⟨none, none⟩).2.2.all fun op => !op.isWrite) = true) ∧
    ((deactivateUser ⟨"u-1", "admin"⟩ "u-2"
        ⟨[⟨"u-1", "a@b.c", "admin", true⟩, ⟨"u-2", "c@d.e", "user", true⟩], [], [], [], [], 1⟩
        ⟨none, none⟩).1 =
      sendSuccessResponse 200 "User deactivated successfully" none ∧
      (deactivateUser ⟨"u-1", "admin"⟩ "u-2"
        ⟨[⟨"u-1", "a@b.c", "admin", true⟩, ⟨"u-2", "c@d.e", "user", true⟩], [], [], [], [], 1⟩
        ⟨none, none⟩).2.1.users =
        (⟨[⟨"u-1", "a@b.c", "admin", true⟩, ⟨"u-2", "c@d.e", "user", true⟩], [], [], [], [],
          1⟩ : Store).users.map
          (fun x => if x.id = "u-2" then { x with is_active := false } else x) ∧
      (deactivateUser ⟨"u-1", "admin"⟩ "u-2"
        ⟨[⟨"u-1", "a@b.c", "admin", true⟩, ⟨"u-2", "c@d.e", "user", true⟩], [], [], [], [], 1⟩
        ⟨none, none⟩).2.1.users.length =
        (⟨[⟨"u-1", "a@b.c", "admin", true⟩, ⟨"u-2", "c@d.e", "user", true⟩], [], [], [], [],
          1⟩ : Store).users.length) :=
  ⟨C9_theorem.1 ⟨[⟨"u-1", "a@b.c", "admin", true⟩, ⟨"u-2", "c@d.e", "user", true⟩], [], [], [],
      [], 1⟩ ⟨"u-1", "admin"⟩ ⟨"u-1", "a@b.c", "admin", true⟩ (by decide),
    C9_theorem.2 ⟨[⟨"u-1", "a@b.c", "admin", true⟩, ⟨"u-2", "c@d.e", "user", true⟩], [], [], [],
      [], 1⟩ ⟨"u-1", "admin"⟩ "u-2" ⟨"u-2", "c@d.e", "user", true⟩ (by decide) (by decide)⟩

/-! ## C10 — pagination parameter validation -/

/-- C10: every paginated list endpoint (all orders, user orders, products)
rejects with HTTP 400 and issues no store statement whenever the effective
page is below 1, the effective limit is below 1, or the limit exceeds the
100 cap. -/
theorem C10_theorem :
    ∀ (rawPage rawLimit : Option Int) (st : Store) (e : Option String)
      (principal : Principal),
      (effectiveParam rawPage 1 < 1 ∨ effectiveParam rawLimit 10 < 1 ∨
        100 < effectiveParam rawLimit 10) →
      getAllOrders rawPage rawLimit st e =
        (sendErrorResponse 400 "Invalid pagination parameters", []) ∧
      getUserOrders principal rawPage rawLimit st e =
        (sendErrorResponse 400 "Invalid pagination parameters", []) ∧
      getAllProducts rawPage rawLimit st e =
        (sendErrorResponse 400 "Invalid pagination parameters", []) := by
  intro rp rl st e p h
  refine ⟨?_, ?_, ?_⟩
  · simp only [getAllOrders]
    rw [if_pos h]
  · simp only [getUserOrders]
    rw [if_pos h]
  · simp only [getAllProducts]
    rw [if_pos h]

/-- C10 witness: the validation applied to a concrete negative page. -/
theorem C10_witness :
    getAllOrders (some (-1)) (some 10) emptyStore none =
      (sendErrorResponse 400 "Invalid pagination parameters", []) ∧
    getUserOrders ⟨"u-1", "admin"⟩ (some (-1)) (some 10) emptyStore none =
      (sendErrorResponse 400 "Invalid pagination parameters", []) ∧
    getAllProducts (some (-1)) (some 10) emptyStore none =
      (sendErrorResponse 400 "Invalid pagination parameters", []) :=
  C10_theorem (some (-1)) (some 10) emptyStore none ⟨"u-1", "admin"⟩ (by decide)

end Herbal
